import Mathlib

/-!
Verification of the AcmeLearn recommendation pipeline core.

This file gives a shallow embedding, in Lean 4, of the parts of the backend
that the specification talks about:

- backend/llm/filters.py           (course pre-filter / relevance scorer)
- backend/llm/intent.py            (query intent classifier)
- backend/llm/schemas.py           (pydantic output schemas of the two agents)
- backend/llm/agents/profile_analyzer.py
- backend/llm/agents/course_recommender.py
- backend/services/recommendation_service.py  (orchestrator, rate limit, persist)
- backend/repositories/recommendation_repository.py
- backend/services/profile_service.py and core/user_manager.py
                                   (profile version / snapshot ledger)

Pure Python functions become Lean functions.  The LLM is a black box, so each
LLM call site takes the call outcome (a structured value, a timeout, or a
generic failure) as an explicit argument.  Python floats in the scorer only
ever hold small integers, so scores are modelled as Nat, with the float
division in the duration score replaced by the equivalent integer comparison.
Fallible Python code (pydantic construction, raising service code) returns
Except.  Python keyword-argument binding and attribute lookup, where the
source gets them wrong, are modelled explicitly by field-name lists.
-/

deriving instance DecidableEq for Except

namespace AcmeLearn

/-! ## Small Python-flavoured string helpers

The scorer and the intent classifier use str.lower, str.strip, str slicing,
substring tests and a findall word regex.  The Lean core string functions are
not kernel-reducible, so these are re-implemented over character lists.
-/

/-- Lowercase one ASCII character, as Python str.lower does on ASCII input. -/
def char_lower (c : Char) : Char :=
  if 'A' ≤ c ∧ c ≤ 'Z' then Char.ofNat (c.toNat + 32) else c

/-- Python str.lower (ASCII fragment). -/
def str_lower (s : String) : String := String.mk (s.toList.map char_lower)

/-- Python whitespace characters stripped by str.strip. -/
def py_whitespace (c : Char) : Bool :=
  c = ' ' || c = '\t' || c = '\n' || c = '\r' || c = Char.ofNat 11 || c = Char.ofNat 12

/-- Python str.strip: drop leading and trailing whitespace. -/
def py_strip (s : String) : String :=
  String.mk (((s.toList.dropWhile py_whitespace).reverse.dropWhile py_whitespace).reverse)

/-- Python s[:n] slicing (by characters). -/
def py_slice (s : String) (n : Nat) : String := String.mk (s.toList.take n)

/-- Character class of the regex word pattern (ASCII fragment). -/
def is_word_char (c : Char) : Bool := c.isAlphanum || c = '_'

/-- Split a character list into the maximal runs of word characters.
The first argument is the remaining input, the second the current run,
accumulated in reverse. -/
def word_runs : List Char → List Char → List (List Char)
  | [], acc => if acc.isEmpty then [] else [acc.reverse]
  | c :: cs, acc =>
    if is_word_char c then word_runs cs (c :: acc)
    else if acc.isEmpty then word_runs cs [] else acc.reverse :: word_runs cs []

/-- Python re.findall of the word pattern: the list of maximal word-character runs. -/
def py_findall_words (s : String) : List String :=
  (word_runs s.toList []).map String.mk

/-- Whether needle occurs as a contiguous sublist of hay. -/
def sublist_at_any : List Char → List Char → Bool
  | needle, [] => needle.isEmpty
  | needle, c :: cs => needle.isPrefixOf (c :: cs) || sublist_at_any needle cs

/-- Python substring test: needle in hay. -/
def str_contains (hay needle : String) : Bool :=
  sublist_at_any needle.toList hay.toList

/-! ## Domain enums (backend/models/enums.py) -/

/-- DifficultyLevel enum. -/
inductive DifficultyLevel where
  | beginner
  | intermediate
  | advanced
deriving DecidableEq, Repr

/-- String value of a DifficultyLevel member. -/
def DifficultyLevel.value : DifficultyLevel → String
  | .beginner => "beginner"
  | .intermediate => "intermediate"
  | .advanced => "advanced"

/-- TimeCommitment enum (weekly hours bucket). -/
inductive TimeCommitment where
  | hours_1_5
  | hours_5_10
  | hours_10_20
  | hours_20_plus
deriving DecidableEq, Repr

/-- String value of a TimeCommitment member. -/
def TimeCommitment.value : TimeCommitment → String
  | .hours_1_5 => "1-5"
  | .hours_5_10 => "5-10"
  | .hours_10_20 => "10-20"
  | .hours_20_plus => "20+"

/-! ## Data model (backend/models) -/

/-- A catalog course with its tag names (backend/models/course.py).  Tags are
modelled by their name strings, which is all the pipeline reads from them. -/
structure Course where
  id : String
  title : String
  description : String
  difficulty : DifficultyLevel
  duration : Nat
  tags : List String
deriving DecidableEq, Repr

/-- A user profile with its interest tag names (backend/models/user_profile.py). -/
structure UserProfile where
  learning_goal : Option String
  current_level : Option DifficultyLevel
  time_commitment : Option TimeCommitment
  version : Nat
  interests : List String
deriving DecidableEq, Repr

/-! ## Course scorer (backend/llm/filters.py) -/

/-- Stop words filtered out of the query in filter_courses. -/
def stop_words : List String :=
  ["the", "and", "for", "with", "about", "want", "need", "help", "please"]

/-- The query keyword set of filter_courses: lowercased regex words of length
above 2 that are not stop words.  Python builds a set; the deduplicated list
carries the same membership. -/
def query_keywords (user_query : String) : List String :=
  (((py_findall_words user_query).filter
      (fun w => 2 < w.length && !(stop_words.contains (str_lower w)))).map str_lower).dedup

/-- Python truthiness of the optional query: bool(user_query and user_query.strip()). -/
def has_query (user_query : Option String) : Bool :=
  match user_query with
  | none => false
  | some q => !(py_strip q).isEmpty

/-- The query keyword set actually used by filter_courses: computed only when
has_query holds, empty otherwise. -/
def query_words_of (user_query : Option String) : List String :=
  match user_query with
  | none => []
  | some q => if has_query (some q) then query_keywords q else []

/-- Query component of the score (0-50): +30 for a title word or substring
match, +20 for a tag match, +15 for a description match, capped at 50.
Skipped (0) when the keyword set is empty. -/
def query_score (course : Course) (query_words : List String) : Nat :=
  if query_words.isEmpty then 0
  else
    let title_lower := str_lower course.title
    let title_words := py_findall_words title_lower
    let course_tag_names_lower := course.tags.map str_lower
    let desc_lower := str_lower (py_slice course.description 500)
    let desc_words := py_findall_words desc_lower
    let title_match :=
      query_words.any (fun qw => title_words.contains qw) ||
      query_words.any (fun qw => str_contains title_lower qw)
    let tag_match :=
      query_words.any (fun qw => course_tag_names_lower.contains qw) ||
      query_words.any (fun qw => course_tag_names_lower.any (fun tn => str_contains tn qw))
    let desc_match :=
      query_words.any (fun qw => desc_words.contains qw) ||
      query_words.any (fun qw => str_contains desc_lower qw)
    min ((if title_match then 30 else 0) + (if tag_match then 20 else 0) +
         (if desc_match then 15 else 0)) 50

/-- Interest overlap part of the profile component: 8 points per distinct
overlapping lowercased tag name, capped at 25. -/
def interest_overlap_score (course : Course) (profile : UserProfile) : Nat :=
  let user_interest_names := (profile.interests.map str_lower).dedup
  let course_tag_names := course.tags.map str_lower
  let overlap_count :=
    (user_interest_names.filter (fun n => course_tag_names.contains n)).length
  min (overlap_count * 8) 25

/-- Index of a difficulty value in the levels list of the source. -/
def level_index : DifficultyLevel → Nat
  | .beginner => 0
  | .intermediate => 1
  | .advanced => 2

/-- score_difficulty of filters.py: 15 exact, 10 adjacent, 3 two levels away,
8 when the user level is unset.  The ValueError branch of the source is
unreachable because every enum value is in the levels list. -/
def score_difficulty (course_difficulty : DifficultyLevel)
    (user_level : Option DifficultyLevel) : Nat :=
  match user_level with
  | none => 8
  | some ul =>
    let d := ((level_index course_difficulty : Int) - (level_index ul : Int)).natAbs
    if d = 0 then 15 else if d = 1 then 10 else 3

/-- Weekly hours mapped from the time commitment bucket in score_duration.
Every bucket is a key of the source dict, so the default 5 of dict.get is
unreachable. -/
def hours_map : TimeCommitment → Nat
  | .hours_1_5 => 3
  | .hours_5_10 => 7
  | .hours_10_20 => 15
  | .hours_20_plus => 25

/-- score_duration of filters.py: weeks = course_hours / hours_per_week, then
10 for at most 4 weeks, 7 for at most 8, 5 for at most 12, else 2; 5 when the
commitment is unset.  hours_per_week is always positive, so the float
comparison weeks <= k is exactly course_hours <= k * hours_per_week. -/
def score_duration (course_hours : Nat) (time_commitment : Option TimeCommitment) : Nat :=
  match time_commitment with
  | none => 5
  | some t =>
    let hours_per_week := hours_map t
    if course_hours ≤ 4 * hours_per_week then 10
    else if course_hours ≤ 8 * hours_per_week then 7
    else if course_hours ≤ 12 * hours_per_week then 5
    else 2

/-- Profile component of the score (0-50): interest overlap + difficulty
alignment + duration feasibility. -/
def profile_score (course : Course) (profile : UserProfile) : Nat :=
  interest_overlap_score course profile +
  score_difficulty course.difficulty profile.current_level +
  score_duration course.duration profile.time_commitment

/-- Total relevance score of one course in filter_courses. -/
def course_score (course : Course) (profile : UserProfile)
    (user_query : Option String) : Nat :=
  query_score course (query_words_of user_query) + profile_score course profile

/-- Maximum description length kept in the course dict. -/
def MAX_DESCRIPTION_LENGTH : Nat := 150

/-- Python t.rsplit of a single space, first part: everything before the last
space, the whole string when it has no space. -/
def before_last_space (s : String) : String :=
  let cs := s.toList
  if cs.contains ' ' then
    String.mk ((cs.reverse.dropWhile (fun c => !(c = ' '))).drop 1).reverse
  else s

/-- Description truncation of filter_courses: keep 150 characters and, when
the description was longer, drop the cut word and append an ellipsis. -/
def truncate_description (s : String) : String :=
  let t := py_slice s MAX_DESCRIPTION_LENGTH
  if MAX_DESCRIPTION_LENGTH < s.toList.length then before_last_space t ++ "..." else t

/-- The per-course dict built by filter_courses for the LLM context. -/
structure CourseDict where
  id : String
  title : String
  description : String
  difficulty : String
  duration : Nat
  tags : List String
  relevance_score : Nat
deriving DecidableEq, Repr

/-- Build the course dict of filter_courses. -/
def course_to_dict (course : Course) (score : Nat) : CourseDict :=
  { id := course.id
    title := course.title
    description := truncate_description course.description
    difficulty := course.difficulty.value
    duration := course.duration
    tags := course.tags
    relevance_score := score }

/-- The scored course dicts of filter_courses, in catalog order. -/
def scored_courses (courses : List Course) (profile : UserProfile)
    (user_query : Option String) : List CourseDict :=
  courses.map (fun c => course_to_dict c (course_score c profile user_query))

/-- The list after the in-place sort by descending relevance_score.  Python
list.sort is stable; insertionSort is the same stable sort. -/
def sorted_scored_courses (courses : List Course) (profile : UserProfile)
    (user_query : Option String) : List CourseDict :=
  List.insertionSort (fun a b : CourseDict => b.relevance_score ≤ a.relevance_score)
    (scored_courses courses profile user_query)

/-- filter_courses of backend/llm/filters.py: score every course, sort by
descending score, keep the positive-score entries capped at 20, and backfill
from the remaining pool up to 10 entries when fewer than 10 survive.  Both
branches of the has_query conditional of the source build the same list, so
the conditional is dropped. -/
def filter_courses (courses : List Course) (profile : UserProfile)
    (user_query : Option String) : List CourseDict :=
  let sorted := sorted_scored_courses courses profile user_query
  let filtered := (sorted.filter (fun c => 0 < c.relevance_score)).take 20
  if filtered.length < 10 then
    let remaining := sorted.filter (fun c => !(filtered.contains c))
    filtered ++ remaining.take (10 - filtered.length)
  else filtered

/-! ## LLM call outcomes and Python error values

The LLM provider is a black box: given a prompt and a target schema it either
returns a schema-validated value, times out, or fails.  Each call site takes
the outcome of its call as an argument. -/

/-- Outcome of one structured-output LLM invocation. -/
inductive LLMOutcome (α : Type) where
  | ok (value : α)
  | timeout
  | failure
deriving DecidableEq, Repr

/-- Python exception kinds that escape the modelled code. -/
inductive PyErr where
  | validation_error
  | type_error
  | attribute_error
deriving DecidableEq, Repr

/-! ## Pydantic schemas (backend/llm/schemas.py) -/

/-- ProfileAnalysis, the structured output of Agent 1.  confidence is a float
in the source; its exact rational value is carried. -/
structure ProfileAnalysis where
  skill_level : String
  skill_gaps : List String
  time_constraint_hours : Nat
  personalization_note : String
  profile_completeness : String
  confidence : ℚ
  profile_feedback : Option String
deriving DecidableEq, Repr

/-- The keyword arguments a caller passes when constructing ProfileAnalysis,
after pydantic has dropped keys that are not fields of the model (the default
extra behaviour).  none means the field was not passed. -/
structure ProfileAnalysisKwargs where
  skill_level : Option String
  skill_gaps : Option (List String)
  time_constraint_hours : Option Nat
  personalization_note : Option String
  profile_completeness : Option String
  confidence : Option ℚ
  profile_feedback : Option String
deriving DecidableEq, Repr

/-- Pydantic construction of ProfileAnalysis: every field without a default
must be present, skill_gaps has at most 3 entries, time_constraint_hours lies
in 1..40 and confidence in 0..1; profile_feedback defaults to None. -/
def mk_profile_analysis (kw : ProfileAnalysisKwargs) : Except PyErr ProfileAnalysis :=
  match kw.skill_level, kw.skill_gaps, kw.time_constraint_hours,
        kw.personalization_note, kw.profile_completeness, kw.confidence with
  | some sl, some gaps, some hours, some note, some comp, some conf =>
    if gaps.length ≤ 3 ∧ 1 ≤ hours ∧ hours ≤ 40 ∧ 0 ≤ conf ∧ conf ≤ 1 then
      Except.ok
        { skill_level := sl
          skill_gaps := gaps
          time_constraint_hours := hours
          personalization_note := note
          profile_completeness := comp
          confidence := conf
          profile_feedback := kw.profile_feedback }
    else Except.error PyErr.validation_error
  | _, _, _, _, _, _ => Except.error PyErr.validation_error

/-- CourseRecommendation, one entry of the Agent 2 output. -/
structure CourseRecommendation where
  course_id : String
  match_score : ℚ
  explanation : String
  skill_gaps_addressed : List String
  estimated_weeks : Nat
deriving DecidableEq, Repr

/-- Field names of the CourseRecommendation model, for attribute lookups. -/
def course_recommendation_fields : List String :=
  ["course_id", "match_score", "explanation", "skill_gaps_addressed", "estimated_weeks"]

/-- Pydantic validity of one CourseRecommendation value. -/
def valid_course_recommendation (r : CourseRecommendation) : Bool :=
  decide (0 ≤ r.match_score) && decide (r.match_score ≤ 1) &&
  decide (r.skill_gaps_addressed.length ≤ 2) &&
  decide (1 ≤ r.estimated_weeks) && decide (r.estimated_weeks ≤ 52)

/-- LearningPathStep, one entry of the 2-3 step learning path. -/
structure LearningPathStep where
  order : Nat
  course_id : String
  rationale : String
deriving DecidableEq, Repr

/-- Pydantic validity of one LearningPathStep value. -/
def valid_learning_path_step (s : LearningPathStep) : Bool :=
  decide (1 ≤ s.order) && decide (s.order ≤ 3)

/-- RecommendationOutput, the structured output of Agent 2. -/
structure RecommendationOutput where
  recommendations : List CourseRecommendation
  learning_path : List LearningPathStep
  overall_summary : String
deriving DecidableEq, Repr

/-- Pydantic construction of RecommendationOutput: 1-10 recommendations, 2-3
learning path steps, each entry valid. -/
def mk_recommendation_output (recs : List CourseRecommendation)
    (path : List LearningPathStep) (summary : String) :
    Except PyErr RecommendationOutput :=
  if (1 ≤ recs.length ∧ recs.length ≤ 10) ∧ (2 ≤ path.length ∧ path.length ≤ 3) ∧
     recs.all valid_course_recommendation ∧ path.all valid_learning_path_step then
    Except.ok { recommendations := recs, learning_path := path, overall_summary := summary }
  else Except.error PyErr.validation_error

/-! ## Intent classifier (backend/llm/intent.py) -/

/-- QueryIntent enum. -/
inductive QueryIntent where
  | specific
  | vague
  | no_query
  | irrelevant
deriving DecidableEq, Repr

/-- Structured output of the intent classification call. -/
structure IntentClassification where
  intent : String
deriving DecidableEq, Repr

/-- The intent_map dict of classify_intent, as dict.get: some for the three
known labels, none otherwise. -/
def intent_map (s : String) : Option QueryIntent :=
  if s = "specific" then some QueryIntent.specific
  else if s = "vague" then some QueryIntent.vague
  else if s = "irrelevant" then some QueryIntent.irrelevant
  else none

/-- classify_intent of backend/llm/intent.py.  The Bool of the result records
whether the LLM was invoked.  Empty or whitespace-only queries short-circuit
to no_query; an LLM result is mapped through intent_map with default vague;
any exception from the call (timeout included) yields specific. -/
def classify_intent (query : Option String)
    (llm : LLMOutcome IntentClassification) : QueryIntent × Bool :=
  match query with
  | none => (QueryIntent.no_query, false)
  | some q =>
    if (py_strip q).isEmpty then (QueryIntent.no_query, false)
    else
      match llm with
      | LLMOutcome.ok result =>
        ((intent_map (str_lower result.intent)).getD QueryIntent.vague, true)
      | LLMOutcome.timeout => (QueryIntent.specific, true)
      | LLMOutcome.failure => (QueryIntent.specific, true)

/-! ## Profile Analyzer agent (backend/llm/agents/profile_analyzer.py) -/

/-- Failure modes of the analyze call: the two typed agent errors raised in
the except clauses, and an uncaught Python exception escaping the method. -/
inductive AnalyzerError where
  | llm_timeout
  | llm_validation
  | uncaught (e : PyErr)
deriving DecidableEq, Repr

/-- is_empty_profile: no learning goal longer than 10 characters and no
interests.  bool(goal and len(goal) > 10) is false for both None and the
empty string, matching the none branch and 10 < length. -/
def is_empty_profile (profile : UserProfile) : Bool :=
  let has_goal := match profile.learning_goal with
    | some g => decide (10 < g.toList.length)
    | none => false
  let has_interests := !profile.interests.isEmpty
  !has_goal && !has_interests

/-- parse_time_commitment: midpoint mapping of the bucket, 5 when unset.
Every bucket is a key of the source dict, so the dict.get default 5 for a set
bucket is unreachable. -/
def parse_time_commitment (time_commitment : Option TimeCommitment) : Nat :=
  match time_commitment with
  | none => 5
  | some t =>
    match t with
    | TimeCommitment.hours_1_5 => 3
    | TimeCommitment.hours_5_10 => 7
    | TimeCommitment.hours_10_20 => 15
    | TimeCommitment.hours_20_plus => 25

/-- default_analysis of the source.  The source passes the keyword arguments
skill_level, skill_gaps, ranked_interests, time_constraint_hours,
learning_style_notes, profile_completeness and confidence to ProfileAnalysis.
ranked_interests and learning_style_notes are not fields of the current
ProfileAnalysis schema and are dropped by pydantic, and the required field
personalization_note is never passed, so the kwargs below carry none for it. -/
def default_analysis (profile : UserProfile) : Except PyErr ProfileAnalysis :=
  mk_profile_analysis
    { skill_level := some (match profile.current_level with
        | some l => l.value
        | none => "beginner")
      skill_gaps := some ["Define your learning goals", "Identify areas of interest"]
      time_constraint_hours := some (parse_time_commitment profile.time_commitment)
      personalization_note := none
      profile_completeness := some "minimal"
      confidence := some (1 / 5 : ℚ)
      profile_feedback := none }

/-- ProfileAnalyzerAgent.analyze.  On an empty profile the default analysis is
built before the try block, so a construction error escapes uncaught; on the
LLM path a timeout becomes LLMTimeoutError and any other call failure becomes
LLMValidationError. -/
def analyzer_analyze (profile : UserProfile)
    (llm : LLMOutcome ProfileAnalysis) : Except AnalyzerError ProfileAnalysis :=
  if is_empty_profile profile then
    match default_analysis profile with
    | Except.ok a => Except.ok a
    | Except.error e => Except.error (AnalyzerError.uncaught e)
  else
    match llm with
    | LLMOutcome.ok result => Except.ok result
    | LLMOutcome.timeout => Except.error AnalyzerError.llm_timeout
    | LLMOutcome.failure => Except.error AnalyzerError.llm_validation

/-! ## Course Recommender agent (backend/llm/agents/course_recommender.py) -/

/-- Failure modes of the recommend call. -/
inductive RecommenderError where
  | no_courses
  | llm_timeout
  | llm_validation
deriving DecidableEq, Repr

/-- validate_course_ids: keep only recommendations and learning path steps
whose course_id is in the valid id set, then rebuild RecommendationOutput,
which re-runs the pydantic length checks. -/
def validate_course_ids (result : RecommendationOutput) (valid_ids : List String) :
    Except PyErr RecommendationOutput :=
  let valid_recs := result.recommendations.filter (fun r => decide (r.course_id ∈ valid_ids))
  let valid_path := result.learning_path.filter (fun s => decide (s.course_id ∈ valid_ids))
  mk_recommendation_output valid_recs valid_path result.overall_summary

/-- CourseRecommenderAgent.recommend.  Empty candidate list raises
LLMNoCoursesError before the call; a timeout maps to LLMTimeoutError; any
other exception inside the try block, a pydantic error from rebuilding the
output in validate_course_ids included, maps to LLMValidationError. -/
def recommend (_analysis : ProfileAnalysis) (courses : List CourseDict)
    (_query : Option String) (_num_courses : Nat)
    (llm : LLMOutcome RecommendationOutput) : Except RecommenderError RecommendationOutput :=
  if courses.isEmpty then Except.error RecommenderError.no_courses
  else
    match llm with
    | LLMOutcome.timeout => Except.error RecommenderError.llm_timeout
    | LLMOutcome.failure => Except.error RecommenderError.llm_validation
    | LLMOutcome.ok result =>
      match validate_course_ids result (courses.map CourseDict.id) with
      | Except.ok validated => Except.ok validated
      | Except.error _ => Except.error RecommenderError.llm_validation

/-! ## Recommendation store (backend/repositories/recommendation_repository.py)

Timestamps are integers counting hours. -/

/-- One row of the recommendations table.  The two JSONB payload columns exist
on the model and default to null. -/
structure RecRow where
  user_id : Nat
  profile_version : Nat
  recommended_course_ids : List String
  explanation : String
  query : Option String
  llm_model : Option String
  profile_analysis_data : Option ProfileAnalysis
  recommendation_details : Option RecommendationOutput
  created_at : Int
deriving DecidableEq, Repr

/-- The durable state the pipeline touches. -/
structure Db where
  recommendations : List RecRow
  profiles : List (Nat × UserProfile)
  courses : List Course
deriving DecidableEq, Repr

/-- get_profile_by_user_id of the profile repository. -/
def get_profile_by_user_id (db : Db) (user_id : Nat) : Option UserProfile :=
  (db.profiles.find? (fun p => p.fst = user_id)).map Prod.snd

/-- count_recent_recommendations: rows of this user created within the
trailing window of the given number of hours. -/
def count_recent_recommendations (db : Db) (user_id : Nat) (now : Int)
    (hours : Nat) : Nat :=
  (db.recommendations.filter
    (fun r => decide (r.user_id = user_id) && decide (now - (hours : Int) ≤ r.created_at))).length

/-- Parameter names of RecommendationRepository.create_recommendation. -/
def create_recommendation_params : List String :=
  ["user_id", "profile_version", "recommended_course_ids", "explanation", "query", "llm_model"]

/-- Keyword argument names the orchestrator passes at its persist step. -/
def orchestrator_store_kwargs : List String :=
  ["user_id", "profile_version", "recommended_course_ids", "explanation", "query",
   "llm_model", "profile_analysis_data", "recommendation_details"]

/-- Python keyword binding: a call succeeds only when every passed keyword is
a parameter of the callee, otherwise it raises TypeError. -/
def kwargs_bind (accepted passed : List String) : Bool :=
  passed.all (fun k => accepted.contains k)

/-- Body of RecommendationRepository.create_recommendation: build the row
(payload columns left at their null default) and commit it. -/
def repo_create_recommendation (db : Db) (user_id : Nat) (profile_version : Nat)
    (recommended_course_ids : List String) (explanation : String)
    (query : Option String) (llm_model : Option String) (now : Int) : Db × RecRow :=
  let row : RecRow :=
    { user_id := user_id
      profile_version := profile_version
      recommended_course_ids := recommended_course_ids
      explanation := explanation
      query := query
      llm_model := llm_model
      profile_analysis_data := none
      recommendation_details := none
      created_at := now }
  ({ db with recommendations := db.recommendations ++ [row] }, row)

/-! ## Orchestrator (backend/services/recommendation_service.py) -/

/-- Rate limit constants of RecommendationService. -/
def RATE_LIMIT_HOURS : Nat := 24

/-- Maximum recommendations per window. -/
def MAX_RECOMMENDATIONS_PER_PERIOD : Nat := 10

/-- The HTTP-level failures generate_recommendations can produce, plus
uncaught Python exceptions escaping the request handler. -/
inductive Failure where
  | http_429
  | http_400_profile
  | http_400_courses
  | http_504
  | http_500
  | unhandled (e : PyErr)
deriving DecidableEq, Repr

/-- Pipeline states of the orchestrator. -/
inductive Stage where
  | rate_limit_check
  | profile_load
  | filtering
  | profile_analysis
  | course_recommendation
  | persist
  | respond
deriving DecidableEq, Repr

/-- The response dict assembled at the final step, restricted to the parts the
specification talks about. -/
structure ResponseData where
  query : Option String
  course_ids : List String
  overall_summary : String
deriving DecidableEq, Repr

/-- OPENAI_MODEL default of core/config.py. -/
def OPENAI_MODEL : String := "gpt-5-nano"

/-- Step 7 of generate_recommendations: for every recommendation the builder
reads r.fit_reasons, which is not a field of CourseRecommendation, so the
first iteration raises AttributeError; with no recommendations no attribute
is read and the response is assembled. -/
def build_response (query : Option String) (recommendation : RecommendationOutput) :
    Except PyErr ResponseData :=
  if recommendation.recommendations.all
      (fun _ => course_recommendation_fields.contains "fit_reasons") then
    Except.ok
      { query := query
        course_ids := recommendation.recommendations.map CourseRecommendation.course_id
        overall_summary := recommendation.overall_summary }
  else Except.error PyErr.attribute_error

/-- Map an analyzer failure to the orchestrator failure: timeout to 504,
validation to 500; an exception that is no LLM error type passes the except
clauses uncaught. -/
def map_analyzer_error : AnalyzerError → Failure
  | AnalyzerError.llm_timeout => Failure.http_504
  | AnalyzerError.llm_validation => Failure.http_500
  | AnalyzerError.uncaught e => Failure.unhandled e

/-- Map a recommender failure to the orchestrator failure: no courses to 400,
timeout to 504, validation to 500. -/
def map_recommender_error : RecommenderError → Failure
  | RecommenderError.no_courses => Failure.http_400_courses
  | RecommenderError.llm_timeout => Failure.http_504
  | RecommenderError.llm_validation => Failure.http_500

/-- generate_recommendations of RecommendationService.  The result carries the
outcome, the database state afterwards, and the list of pipeline stages that
were entered, in order.  The two LLM call outcomes are passed as arguments. -/
def generate_recommendations (db : Db) (user_id : Nat) (now : Int)
    (query : Option String) (num_recommendations : Nat)
    (analyzer_llm : LLMOutcome ProfileAnalysis)
    (recommender_llm : LLMOutcome RecommendationOutput) :
    Except Failure ResponseData × Db × List Stage :=
  if MAX_RECOMMENDATIONS_PER_PERIOD ≤
      count_recent_recommendations db user_id now RATE_LIMIT_HOURS then
    (Except.error Failure.http_429, db, [Stage.rate_limit_check])
  else
    match get_profile_by_user_id db user_id with
    | none =>
      (Except.error Failure.http_400_profile, db, [Stage.rate_limit_check, Stage.profile_load])
    | some profile =>
      let filtered_courses := filter_courses db.courses profile query
      if filtered_courses.isEmpty then
        (Except.error Failure.http_400_courses, db,
         [Stage.rate_limit_check, Stage.profile_load, Stage.filtering])
      else
        match analyzer_analyze profile analyzer_llm with
        | Except.error e =>
          (Except.error (map_analyzer_error e), db,
           [Stage.rate_limit_check, Stage.profile_load, Stage.filtering,
            Stage.profile_analysis])
        | Except.ok profile_analysis =>
          match recommend profile_analysis filtered_courses query
              num_recommendations recommender_llm with
          | Except.error e =>
            (Except.error (map_recommender_error e), db,
             [Stage.rate_limit_check, Stage.profile_load, Stage.filtering,
              Stage.profile_analysis, Stage.course_recommendation])
          | Except.ok recommendation =>
            if kwargs_bind create_recommendation_params orchestrator_store_kwargs then
              let stored := repo_create_recommendation db user_id profile.version
                (recommendation.recommendations.map CourseRecommendation.course_id)
                recommendation.overall_summary query (some OPENAI_MODEL) now
              match build_response query recommendation with
              | Except.error e =>
                (Except.error (Failure.unhandled e), stored.fst,
                 [Stage.rate_limit_check, Stage.profile_load, Stage.filtering,
                  Stage.profile_analysis, Stage.course_recommendation, Stage.persist,
                  Stage.respond])
              | Except.ok resp =>
                (Except.ok resp, stored.fst,
                 [Stage.rate_limit_check, Stage.profile_load, Stage.filtering,
                  Stage.profile_analysis, Stage.course_recommendation, Stage.persist,
                  Stage.respond])
            else
              (Except.error (Failure.unhandled PyErr.type_error), db,
               [Stage.rate_limit_check, Stage.profile_load, Stage.filtering,
                Stage.profile_analysis, Stage.course_recommendation, Stage.persist])

/-! ## Profile version store (backend/services/profile_service.py and
backend/core/user_manager.py) -/

/-- The patch accepted by update_profile: every argument is optional, a None
argument is indistinguishable from an absent one, and interests are the
resolved tag names. -/
structure ProfilePatch where
  learning_goal : Option String
  current_level : Option DifficultyLevel
  time_commitment : Option TimeCommitment
  interest_tags : Option (List String)
deriving DecidableEq, Repr

/-- UserProfileRepository.update_profile: set each provided field, replace the
interests when provided, and increment the version by one. -/
def update_profile (profile : UserProfile) (patch : ProfilePatch) : UserProfile :=
  { learning_goal := match patch.learning_goal with
      | some g => some g
      | none => profile.learning_goal
    current_level := match patch.current_level with
      | some l => some l
      | none => profile.current_level
    time_commitment := match patch.time_commitment with
      | some t => some t
      | none => profile.time_commitment
    interests := match patch.interest_tags with
      | some ts => ts
      | none => profile.interests
    version := profile.version + 1 }

/-- One row of the user_profile_snapshots table. -/
structure Snapshot where
  version : Nat
  learning_goal : Option String
  current_level : Option DifficultyLevel
  time_commitment : Option TimeCommitment
  interests_snapshot : List String
deriving DecidableEq, Repr

/-- The snapshot capturing a profile state, as built by
update_profile_with_snapshot from the updated profile. -/
def snapshot_of (profile : UserProfile) : Snapshot :=
  { version := profile.version
    learning_goal := profile.learning_goal
    current_level := profile.current_level
    time_commitment := profile.time_commitment
    interests_snapshot := profile.interests }

/-- The empty profile created by on_after_register: version 1, all fields
empty. -/
def initial_profile : UserProfile :=
  { learning_goal := none
    current_level := none
    time_commitment := none
    version := 1
    interests := [] }

/-- The initial snapshot seeded by on_after_register: version 1, all fields
empty. -/
def initial_snapshot : Snapshot :=
  { version := 1
    learning_goal := none
    current_level := none
    time_commitment := none
    interests_snapshot := [] }

/-- ProfileService.update_profile_with_snapshot: update the profile, then
append exactly one snapshot of the resulting state; both are committed as one
step. -/
def update_profile_with_snapshot (profile : UserProfile) (snapshots : List Snapshot)
    (patch : ProfilePatch) : UserProfile × List Snapshot :=
  let updated := update_profile profile patch
  (updated, snapshots ++ [snapshot_of updated])

/-- Registration followed by a sequence of successful profile updates. -/
def run_profile_history (patches : List ProfilePatch) : UserProfile × List Snapshot :=
  patches.foldl
    (fun st patch => update_profile_with_snapshot st.fst st.snd patch)
    (initial_profile, [initial_snapshot])

/-- The profile state after the first k updates. -/
def profile_state_at (patches : List ProfilePatch) (k : Nat) : UserProfile :=
  (patches.take k).foldl update_profile initial_profile

/-! ## Concrete example inputs used by witnesses and evaluations -/

/-- A profile analysis value as the analyzer LLM call would return it. -/
def example_analysis : ProfileAnalysis :=
  { skill_level := "intermediate"
    skill_gaps := ["sql", "statistics"]
    time_constraint_hours := 7
    personalization_note := "Data background fits analytics work."
    profile_completeness := "complete"
    confidence := 1
    profile_feedback := none }

/-- Two candidate course dicts, as filter_courses would hand them to Agent 2. -/
def example_candidates : List CourseDict :=
  [{ id := "c1", title := "Python Basics", description := "Start coding.",
     difficulty := "beginner", duration := 10, tags := ["python"], relevance_score := 45 },
   { id := "c2", title := "Data Analysis", description := "Work with data.",
     difficulty := "intermediate", duration := 20, tags := ["data"], relevance_score := 30 }]

/-- A raw Agent 2 output with one hallucinated course id among three
recommendations. -/
def example_raw_output : RecommendationOutput :=
  { recommendations :=
      [{ course_id := "c1", match_score := 1, explanation := "Fits the goal.",
         skill_gaps_addressed := ["sql"], estimated_weeks := 4 },
       { course_id := "ghost", match_score := 1, explanation := "Hallucinated.",
         skill_gaps_addressed := [], estimated_weeks := 4 },
       { course_id := "c2", match_score := 1, explanation := "Second step.",
         skill_gaps_addressed := [], estimated_weeks := 6 }]
    learning_path :=
      [{ order := 1, course_id := "c1", rationale := "Foundation." },
       { order := 2, course_id := "c2", rationale := "Builds on it." }]
    overall_summary := "Two-step data path." }

/-- The validated output: the hallucinated entry dropped, the rest kept. -/
def example_validated_output : RecommendationOutput :=
  { recommendations :=
      [{ course_id := "c1", match_score := 1, explanation := "Fits the goal.",
         skill_gaps_addressed := ["sql"], estimated_weeks := 4 },
       { course_id := "c2", match_score := 1, explanation := "Second step.",
         skill_gaps_addressed := [], estimated_weeks := 6 }]
    learning_path :=
      [{ order := 1, course_id := "c1", rationale := "Foundation." },
       { order := 2, course_id := "c2", rationale := "Builds on it." }]
    overall_summary := "Two-step data path." }

/-- A recommendation row created two hours before time 100. -/
def example_recent_row : RecRow :=
  { user_id := 1
    profile_version := 3
    recommended_course_ids := ["c1"]
    explanation := "done"
    query := none
    llm_model := some OPENAI_MODEL
    profile_analysis_data := none
    recommendation_details := none
    created_at := 98 }

/-- A database in which user 1 already has exactly 10 recommendations created
two hours ago (Scenario D of the specification). -/
def example_db_at_quota : Db :=
  { recommendations := List.replicate 10 example_recent_row
    profiles := [(1, initial_profile)]
    courses := [] }

/-- A filled profile: long learning goal, level and commitment set, one
interest. -/
def example_full_profile : UserProfile :=
  { learning_goal := some "Master machine learning basics"
    current_level := some DifficultyLevel.beginner
    time_commitment := some TimeCommitment.hours_5_10
    version := 2
    interests := ["python"] }

/-- One catalog course matching the example profile. -/
def example_course : Course :=
  { id := "c1"
    title := "Python Basics"
    description := "Start coding in Python."
    difficulty := DifficultyLevel.beginner
    duration := 10
    tags := ["python"] }

/-- A database set up so a run reaches the persist step: no prior
recommendations, a filled profile for user 1, one course. -/
def example_db_ready : Db :=
  { recommendations := []
    profiles := [(1, example_full_profile)]
    courses := [example_course] }

/-- An Agent 2 output whose ids all come from the example catalog. -/
def example_output_all_valid : RecommendationOutput :=
  { recommendations :=
      [{ course_id := "c1", match_score := 1, explanation := "Fits the goal.",
         skill_gaps_addressed := [], estimated_weeks := 4 }]
    learning_path :=
      [{ order := 1, course_id := "c1", rationale := "Foundation." },
       { order := 2, course_id := "c1", rationale := "Repetition." }]
    overall_summary := "Single-course plan." }

/-- A catalog of ten distinct courses. -/
def example_catalog_10 : List Course :=
  [{ id := "c1", title := "A", description := "d", difficulty := DifficultyLevel.beginner,
     duration := 5, tags := ["t1"] },
   { id := "c2", title := "B", description := "d", difficulty := DifficultyLevel.beginner,
     duration := 10, tags := ["t2"] },
   { id := "c3", title := "C", description := "d", difficulty := DifficultyLevel.intermediate,
     duration := 15, tags := ["t3"] },
   { id := "c4", title := "D", description := "d", difficulty := DifficultyLevel.intermediate,
     duration := 20, tags := ["t4"] },
   { id := "c5", title := "E", description := "d", difficulty := DifficultyLevel.advanced,
     duration := 25, tags := ["t5"] },
   { id := "c6", title := "F", description := "d", difficulty := DifficultyLevel.advanced,
     duration := 30, tags := ["t6"] },
   { id := "c7", title := "G", description := "d", difficulty := DifficultyLevel.beginner,
     duration := 35, tags := ["t7"] },
   { id := "c8", title := "H", description := "d", difficulty := DifficultyLevel.beginner,
     duration := 40, tags := ["t8"] },
   { id := "c9", title := "I", description := "d", difficulty := DifficultyLevel.intermediate,
     duration := 45, tags := ["t9"] },
   { id := "c10", title := "J", description := "d", difficulty := DifficultyLevel.advanced,
     duration := 50, tags := ["t10"] }]

/-- Three profile patches, as in Scenario E of the specification. -/
def example_patches : List ProfilePatch :=
  [{ learning_goal := some "Learn data analysis", current_level := none,
     time_commitment := none, interest_tags := none },
   { learning_goal := none, current_level := some DifficultyLevel.beginner,
     time_commitment := none, interest_tags := some ["python", "sql"] },
   { learning_goal := some "Master data engineering", current_level := none,
     time_commitment := some TimeCommitment.hours_10_20, interest_tags := none }]

/-! ## Helper lemmas about the scorer components -/

/-- The query component never exceeds its 50 point cap. -/
theorem query_score_le_50 (course : Course) (query_words : List String) :
    query_score course query_words ≤ 50 := by
  unfold query_score
  split
  · omega
  · exact Nat.min_le_right _ _

/-- The interest overlap part never exceeds its 25 point cap. -/
theorem interest_overlap_score_le_25 (course : Course) (profile : UserProfile) :
    interest_overlap_score course profile ≤ 25 := by
  unfold interest_overlap_score
  exact Nat.min_le_right _ _

/-- The difficulty alignment score is one of 15, 10, 8 and 3, hence at most 15. -/
theorem score_difficulty_le_15 (cd : DifficultyLevel) (ul : Option DifficultyLevel) :
    score_difficulty cd ul ≤ 15 := by
  rcases ul with _ | l
  · cases cd <;> decide
  · cases cd <;> cases l <;> decide

/-- The difficulty alignment score is at least 3. -/
theorem score_difficulty_ge_3 (cd : DifficultyLevel) (ul : Option DifficultyLevel) :
    3 ≤ score_difficulty cd ul := by
  rcases ul with _ | l
  · cases cd <;> decide
  · cases cd <;> cases l <;> decide

/-- The duration feasibility score is one of 10, 7, 5 and 2, hence at most 10. -/
theorem score_duration_le_10 (hours : Nat) (tc : Option TimeCommitment) :
    score_duration hours tc ≤ 10 := by
  rcases tc with _ | t
  · simp [score_duration]
  · simp only [score_duration]
    split
    · omega
    · split
      · omega
      · split <;> omega

/-- The duration feasibility score is at least 2. -/
theorem score_duration_ge_2 (hours : Nat) (tc : Option TimeCommitment) :
    2 ≤ score_duration hours tc := by
  rcases tc with _ | t
  · simp [score_duration]
  · simp only [score_duration]
    split
    · omega
    · split
      · omega
      · split <;> omega

/-- The profile component never exceeds 50: 25 + 15 + 10. -/
theorem profile_score_le_50 (course : Course) (profile : UserProfile) :
    profile_score course profile ≤ 50 := by
  have h1 := interest_overlap_score_le_25 course profile
  have h2 := score_difficulty_le_15 course.difficulty profile.current_level
  have h3 := score_duration_le_10 course.duration profile.time_commitment
  unfold profile_score
  omega

/-- The profile component is always positive, because the difficulty and
duration sub-scores have positive floors; hence no course ever scores zero. -/
theorem profile_score_pos (course : Course) (profile : UserProfile) :
    0 < profile_score course profile := by
  have h2 := score_difficulty_ge_3 course.difficulty profile.current_level
  have h3 := score_duration_ge_2 course.duration profile.time_commitment
  unfold profile_score
  omega

/-- Every total relevance score is positive. -/
theorem course_score_pos (course : Course) (profile : UserProfile)
    (user_query : Option String) : 0 < course_score course profile user_query := by
  have h := profile_score_pos course profile
  unfold course_score
  omega

/-- C8 (main theorem): the total relevance score lies in 0..100, the query
component is at most 50 and the profile component is at most 50. -/
theorem c8_score_bounds (course : Course) (profile : UserProfile)
    (user_query : Option String) :
    0 ≤ course_score course profile user_query ∧
    course_score course profile user_query ≤ 100 ∧
    query_score course (query_words_of user_query) ≤ 50 ∧
    profile_score course profile ≤ 50 := by
  have h1 := query_score_le_50 course (query_words_of user_query)
  have h2 := profile_score_le_50 course profile
  refine ⟨Nat.zero_le _, ?_, h1, h2⟩
  unfold course_score
  omega

/-- C7 (counterexample): the negation of the claimed no-query scaling.  No
input makes the interest overlap exceed 25 points, the difficulty alignment
exceed 15 points, or the duration feasibility exceed 10 points, so none of
those sub-scores goes up to 40, 30 or 20. -/
theorem c7_no_scaling_counterexample :
    ¬ ((∃ (c : Course) (p : UserProfile), 25 < interest_overlap_score c p) ∨
       (∃ (cd : DifficultyLevel) (ul : Option DifficultyLevel), 15 < score_difficulty cd ul) ∨
       (∃ (hours : Nat) (tc : Option TimeCommitment), 10 < score_duration hours tc)) := by
  rintro (⟨c, p, h⟩ | ⟨cd, ul, h⟩ | ⟨hours, tc, h⟩)
  · have := interest_overlap_score_le_25 c p
    omega
  · have := score_difficulty_le_15 cd ul
    omega
  · have := score_duration_le_10 hours tc
    omega

/-- C7 (amended): with no query the total score is the profile component
alone, on the same 0-50 scale as in query mode: interest overlap up to 25,
difficulty alignment up to 15, duration feasibility up to 10. -/
theorem c7_no_query_profile_component_only (course : Course) (profile : UserProfile) :
    course_score course profile none =
      interest_overlap_score course profile +
      score_difficulty course.difficulty profile.current_level +
      score_duration course.duration profile.time_commitment ∧
    interest_overlap_score course profile ≤ 25 ∧
    score_difficulty course.difficulty profile.current_level ≤ 15 ∧
    score_duration course.duration profile.time_commitment ≤ 10 ∧
    course_score course profile none ≤ 50 := by
  have heq : course_score course profile none = profile_score course profile := by
    simp [course_score, query_words_of, query_score]
  refine ⟨?_, interest_overlap_score_le_25 course profile,
    score_difficulty_le_15 course.difficulty profile.current_level,
    score_duration_le_10 course.duration profile.time_commitment, ?_⟩
  · rw [heq]; rfl
  · rw [heq]; exact profile_score_le_50 course profile

/-- Every entry of the sorted scored list has positive score, so the
positive-score filter of filter_courses keeps everything. -/
theorem sorted_scored_filter_pos (courses : List Course) (profile : UserProfile)
    (user_query : Option String) :
    (sorted_scored_courses courses profile user_query).filter
        (fun c => 0 < c.relevance_score) =
      sorted_scored_courses courses profile user_query := by
  apply List.filter_eq_self.mpr
  intro x hx
  unfold sorted_scored_courses scored_courses at hx
  rw [List.mem_insertionSort] at hx
  obtain ⟨c, _, rfl⟩ := List.mem_map.mp hx
  simpa [course_to_dict] using course_score_pos c profile user_query

/-- The sort does not change the number of entries. -/
theorem sorted_scored_length (courses : List Course) (profile : UserProfile)
    (user_query : Option String) :
    (sorted_scored_courses courses profile user_query).length = courses.length := by
  unfold sorted_scored_courses scored_courses
  rw [List.length_insertionSort, List.length_map]

/-- C6 (main theorem): for a catalog of at least 10 courses, filter_courses
returns at least 10 candidates.  Since every course scores positive, the
zero-score discard keeps everything, the top-20 cut leaves at least 10, and
the backfill branch is not taken. -/
theorem c6_minimum_candidates (courses : List Course) (profile : UserProfile)
    (user_query : Option String) (h : 10 ≤ courses.length) :
    10 ≤ (filter_courses courses profile user_query).length := by
  have hfilter := sorted_scored_filter_pos courses profile user_query
  have hlen := sorted_scored_length courses profile user_query
  have htake : (((sorted_scored_courses courses profile user_query).filter
      (fun c => 0 < c.relevance_score)).take 20).length = min 20 courses.length := by
    rw [hfilter, List.length_take, hlen]
  unfold filter_courses
  rw [if_neg]
  · rw [htake]; omega
  · rw [htake]; omega

/-- C6 (witness): the concrete ten-course catalog yields at least ten
candidates. -/
theorem c6_minimum_candidates_witness :
    10 ≤ example_catalog_10.length ∧
    10 ≤ (filter_courses example_catalog_10 initial_profile none).length :=
  ⟨by decide, c6_minimum_candidates example_catalog_10 initial_profile none (by decide)⟩

/-! ## Theorems about the agents, the intent classifier and the orchestrator -/

/-- C1 (main theorem): whenever the recommender agent returns an output, every
course id in its recommendations and learning path belongs to the id set of
the candidate list, and the output is exactly the local filtering of the LLM
result against that id set, returned without an error. -/
theorem c1_validated_output_ids (analysis : ProfileAnalysis) (courses : List CourseDict)
    (query : Option String) (num_courses : Nat) (llm : LLMOutcome RecommendationOutput)
    (out : RecommendationOutput)
    (h : recommend analysis courses query num_courses llm = Except.ok out) :
    (∀ r ∈ out.recommendations, r.course_id ∈ courses.map CourseDict.id) ∧
    (∀ s ∈ out.learning_path, s.course_id ∈ courses.map CourseDict.id) ∧
    (∃ raw, llm = LLMOutcome.ok raw ∧
      out.recommendations = raw.recommendations.filter
        (fun r => decide (r.course_id ∈ courses.map CourseDict.id)) ∧
      out.learning_path = raw.learning_path.filter
        (fun s => decide (s.course_id ∈ courses.map CourseDict.id)) ∧
      out.overall_summary = raw.overall_summary) := by
  unfold recommend at h
  split at h
  · exact absurd h (by simp)
  · cases llm with
    | timeout => exact absurd h (by simp)
    | failure => exact absurd h (by simp)
    | ok raw =>
      dsimp only at h
      cases hv : validate_course_ids raw (courses.map CourseDict.id) with
      | error e =>
        rw [hv] at h
        exact absurd h (by simp)
      | ok v =>
        rw [hv] at h
        dsimp only at h
        have hov : v = out := by simpa using h
        subst hov
        simp only [validate_course_ids, mk_recommendation_output] at hv
        split at hv
        · injection hv with hveq
          subst hveq
          refine ⟨?_, ?_, raw, rfl, rfl, rfl, rfl⟩
          · intro r hr
            exact of_decide_eq_true (List.mem_filter.mp hr).2
          · intro s hs
            exact of_decide_eq_true (List.mem_filter.mp hs).2
        · exact absurd hv (by simp)

/-- C1 (witness): a run in which one hallucinated id is dropped and the
remaining entries are returned. -/
theorem c1_validated_output_ids_witness :
    (∀ r ∈ example_validated_output.recommendations,
       r.course_id ∈ example_candidates.map CourseDict.id) ∧
    (∀ s ∈ example_validated_output.learning_path,
       s.course_id ∈ example_candidates.map CourseDict.id) ∧
    (∃ raw, LLMOutcome.ok example_raw_output = LLMOutcome.ok raw ∧
      example_validated_output.recommendations = raw.recommendations.filter
        (fun r => decide (r.course_id ∈ example_candidates.map CourseDict.id)) ∧
      example_validated_output.learning_path = raw.learning_path.filter
        (fun s => decide (s.course_id ∈ example_candidates.map CourseDict.id)) ∧
      example_validated_output.overall_summary = raw.overall_summary) :=
  c1_validated_output_ids example_analysis example_candidates (some "data") 5
    (LLMOutcome.ok example_raw_output) example_validated_output (by decide)

/-- C2 (main theorem): when the user already has at least 10 recommendations
in the trailing 24 hours, generate_recommendations terminates with the 429
quota failure, the database is unchanged, and the rate limit check is the
only pipeline state entered. -/
theorem c2_rate_limit_terminates (db : Db) (user_id : Nat) (now : Int)
    (query : Option String) (num_recommendations : Nat)
    (analyzer_llm : LLMOutcome ProfileAnalysis)
    (recommender_llm : LLMOutcome RecommendationOutput)
    (h : MAX_RECOMMENDATIONS_PER_PERIOD ≤
         count_recent_recommendations db user_id now RATE_LIMIT_HOURS) :
    generate_recommendations db user_id now query num_recommendations
        analyzer_llm recommender_llm =
      (Except.error Failure.http_429, db, [Stage.rate_limit_check]) := by
  unfold generate_recommendations
  rw [if_pos h]

/-- C2 (witness): Scenario D, a user with exactly 10 rows created two hours
ago is rejected with 429 and no other state is entered. -/
theorem c2_rate_limit_terminates_witness :
    MAX_RECOMMENDATIONS_PER_PERIOD ≤
      count_recent_recommendations example_db_at_quota 1 100 RATE_LIMIT_HOURS ∧
    generate_recommendations example_db_at_quota 1 100 none 5
        LLMOutcome.failure LLMOutcome.failure =
      (Except.error Failure.http_429, example_db_at_quota, [Stage.rate_limit_check]) :=
  ⟨by decide, c2_rate_limit_terminates example_db_at_quota 1 100 none 5
      LLMOutcome.failure LLMOutcome.failure (by decide)⟩

/-- C4 (code bug): on an empty profile the analyzer takes the fast path, but
constructing the default ProfileAnalysis fails pydantic validation, because
the required field personalization_note is never passed (the source still
passes the renamed-away fields ranked_interests and learning_style_notes), so
the analyzer raises instead of returning the confidence-0.2 default. -/
theorem c4_default_analysis_crashes :
    is_empty_profile initial_profile = true ∧
    default_analysis initial_profile = Except.error PyErr.validation_error ∧
    analyzer_analyze initial_profile LLMOutcome.failure =
      Except.error (AnalyzerError.uncaught PyErr.validation_error) := by
  decide

/-- C5 (code bug): a run that reaches the persist step fails there with a
TypeError, because the orchestrator passes the keyword arguments
profile_analysis_data and recommendation_details, which
RecommendationRepository.create_recommendation does not accept; no row is
written and the run fails. -/
theorem c5_persist_type_error :
    kwargs_bind create_recommendation_params orchestrator_store_kwargs = false ∧
    generate_recommendations example_db_ready 1 100 (some "python") 5
        (LLMOutcome.ok example_analysis) (LLMOutcome.ok example_output_all_valid) =
      (Except.error (Failure.unhandled PyErr.type_error), example_db_ready,
       [Stage.rate_limit_check, Stage.profile_load, Stage.filtering,
        Stage.profile_analysis, Stage.course_recommendation, Stage.persist]) := by
  decide

/-- C9 (main theorem): classify_intent short-circuits to no_query with no LLM
call when the query is None, empty or whitespace-only, and returns specific
whenever the LLM call on a non-empty query fails for any reason. -/
theorem c9_intent_fallbacks (query : Option String)
    (llm : LLMOutcome IntentClassification) :
    ((query = none ∨ ∃ q, query = some q ∧ (py_strip q).isEmpty = true) →
      classify_intent query llm = (QueryIntent.no_query, false)) ∧
    (∀ q, query = some q → (py_strip q).isEmpty = false →
      (llm = LLMOutcome.timeout ∨ llm = LLMOutcome.failure) →
      classify_intent query llm = (QueryIntent.specific, true)) := by
  constructor
  · rintro (rfl | ⟨q, rfl, hq⟩)
    · rfl
    · simp [classify_intent, hq]
  · rintro q rfl hq (rfl | rfl) <;> simp [classify_intent, hq]

/-- C9 (witness): a None query, a whitespace-only query, and both failure
modes of the call on a non-empty query. -/
theorem c9_intent_fallbacks_witness :
    classify_intent none LLMOutcome.failure = (QueryIntent.no_query, false) ∧
    classify_intent (some "   ") LLMOutcome.failure = (QueryIntent.no_query, false) ∧
    classify_intent (some "learn sales") LLMOutcome.timeout = (QueryIntent.specific, true) ∧
    classify_intent (some "learn sales") LLMOutcome.failure = (QueryIntent.specific, true) :=
  ⟨(c9_intent_fallbacks none LLMOutcome.failure).1 (Or.inl rfl),
   (c9_intent_fallbacks (some "   ") LLMOutcome.failure).1
     (Or.inr ⟨"   ", rfl, by decide⟩),
   (c9_intent_fallbacks (some "learn sales") LLMOutcome.timeout).2 "learn sales" rfl
     (by decide) (Or.inl rfl),
   (c9_intent_fallbacks (some "learn sales") LLMOutcome.failure).2 "learn sales" rfl
     (by decide) (Or.inr rfl)⟩

/-- C10 (main theorem): a successful LLM call whose lowercased label is none
of specific, vague and irrelevant makes classify_intent return vague. -/
theorem c10_unknown_label_vague (q : String) (result : IntentClassification)
    (h1 : (py_strip q).isEmpty = false)
    (h2 : str_lower result.intent ∉ (["specific", "vague", "irrelevant"] : List String)) :
    classify_intent (some q) (LLMOutcome.ok result) = (QueryIntent.vague, true) := by
  simp only [List.mem_cons, List.not_mem_nil, or_false, not_or] at h2
  obtain ⟨ha, hb, hc⟩ := h2
  simp [classify_intent, h1, intent_map, ha, hb, hc]

/-- C10 (witness): the label Banana lowercases to banana, which is not in the
taxonomy, and yields vague. -/
theorem c10_unknown_label_vague_witness :
    (py_strip "hello").isEmpty = false ∧
    str_lower "Banana" ∉ (["specific", "vague", "irrelevant"] : List String) ∧
    classify_intent (some "hello") (LLMOutcome.ok { intent := "Banana" }) =
      (QueryIntent.vague, true) :=
  ⟨by decide, by decide,
   c10_unknown_label_vague "hello" { intent := "Banana" } (by decide) (by decide)⟩

/-! ## Theorems about the profile version store -/

/-- Folding updates over a profile adds the number of updates to the version. -/
theorem foldl_update_profile_version (l : List ProfilePatch) (p : UserProfile) :
    (l.foldl update_profile p).version = p.version + l.length := by
  induction l generalizing p with
  | nil => simp
  | cons a l ih =>
    rw [List.foldl_cons, ih]
    simp [update_profile]
    omega

/-- The state after the first k updates has version k + 1. -/
theorem profile_state_at_version (patches : List ProfilePatch) (k : Nat)
    (hk : k ≤ patches.length) : (profile_state_at patches k).version = k + 1 := by
  unfold profile_state_at
  rw [foldl_update_profile_version, List.length_take]
  have : min k patches.length = k := min_eq_left hk
  simp [initial_profile]
  omega

/-- Closed form of the history run: the final profile is the state after all
updates, and the snapshot ledger holds exactly one snapshot of the state
after the first i updates, for every i from 0 to the number of updates, in
order. -/
theorem run_profile_history_eq (patches : List ProfilePatch) :
    run_profile_history patches =
      (profile_state_at patches patches.length,
       (List.range (patches.length + 1)).map
         (fun i => snapshot_of (profile_state_at patches i))) := by
  induction patches using List.reverseRecOn with
  | nil => rfl
  | append_singleton ps p ih =>
    have h1 : run_profile_history (ps ++ [p]) =
        update_profile_with_snapshot (run_profile_history ps).fst
          (run_profile_history ps).snd p := by
      unfold run_profile_history
      rw [List.foldl_append]
      rfl
    have hstates : ∀ i, i ≤ ps.length →
        profile_state_at (ps ++ [p]) i = profile_state_at ps i := by
      intro i hi
      unfold profile_state_at
      rw [List.take_append_of_le_length hi]
    have hstate : profile_state_at (ps ++ [p]) (ps.length + 1) =
        update_profile (profile_state_at ps ps.length) p := by
      unfold profile_state_at
      rw [List.take_of_length_le (by simp), List.take_length, List.foldl_append]
      rfl
    rw [h1, ih]
    unfold update_profile_with_snapshot
    rw [Prod.mk.injEq]
    constructor
    · dsimp only
      rw [List.length_append, List.length_singleton, hstate]
    · dsimp only
      rw [List.length_append, List.length_singleton]
      conv_rhs => rw [List.range_succ]
      rw [List.map_append, List.map_singleton, hstate]
      congr 1
      apply List.map_congr_left
      intro i hi
      rw [List.mem_range] at hi
      rw [hstates i (by omega)]

/-- Filtering the range below n for the predecessor of v picks exactly v-1. -/
theorem range_filter_singleton (n v : Nat) (h1 : 1 ≤ v) (h2 : v ≤ n) :
    (List.range n).filter (fun i => decide (i + 1 = v)) = [v - 1] := by
  induction n with
  | zero => omega
  | succ n ih =>
    rw [List.range_succ, List.filter_append]
    rcases Nat.lt_or_ge v (n + 1) with hlt | hge
    · rw [ih (by omega)]
      have hsing : (List.filter (fun i => decide (i + 1 = v)) [n]) = [] := by
        simp
        omega
      rw [hsing, List.append_nil]
    · have hv : v = n + 1 := by omega
      subst hv
      have hnil : (List.range n).filter (fun i => decide (i + 1 = n + 1)) = [] := by
        apply List.filter_eq_nil_iff.mpr
        intro a ha
        rw [List.mem_range] at ha
        simp
        omega
      rw [hnil, List.nil_append]
      simp

/-- C3 (main theorem): after creation and any sequence of successful updates,
the profile version is the number of updates plus one, the ledger holds that
many snapshots, and for every version v in range exactly one snapshot carries
version v, capturing precisely the profile state right after the update that
produced version v (the creation state for v = 1). -/
theorem c3_version_snapshot_invariant (patches : List ProfilePatch) (v : Nat)
    (h1 : 1 ≤ v) (h2 : v ≤ (run_profile_history patches).fst.version) :
    (run_profile_history patches).fst.version = patches.length + 1 ∧
    (run_profile_history patches).snd.length = patches.length + 1 ∧
    (profile_state_at patches (v - 1)).version = v ∧
    (run_profile_history patches).snd.filter (fun s => decide (s.version = v)) =
      [snapshot_of (profile_state_at patches (v - 1))] := by
  have hrun := run_profile_history_eq patches
  have hver : (run_profile_history patches).fst.version = patches.length + 1 := by
    rw [hrun]
    exact profile_state_at_version patches patches.length (le_refl _)
  have hv2 : v ≤ patches.length + 1 := by rw [hver] at h2; exact h2
  have hstatev : (profile_state_at patches (v - 1)).version = v := by
    rw [profile_state_at_version patches (v - 1) (by omega)]
    omega
  refine ⟨hver, ?_, hstatev, ?_⟩
  · rw [hrun]
    simp
  · rw [hrun]
    dsimp only
    rw [List.filter_map]
    have hcong : (List.range (patches.length + 1)).filter
        ((fun s => decide (s.version = v)) ∘ (fun i => snapshot_of (profile_state_at patches i))) =
        (List.range (patches.length + 1)).filter (fun i => decide (i + 1 = v)) := by
      apply List.filter_congr
      intro i hi
      rw [List.mem_range] at hi
      have : (snapshot_of (profile_state_at patches i)).version = i + 1 := by
        unfold snapshot_of
        exact profile_state_at_version patches i (by omega)
      simp only [Function.comp_apply, this]
    rw [hcong, range_filter_singleton (patches.length + 1) v h1 hv2]
    simp

/-- C3 (witness): Scenario E, three updates yield version 4 and four
snapshots, and the version-4 snapshot is the state after the third update. -/
theorem c3_version_snapshot_invariant_witness :
    (1 ≤ 4 ∧ 4 ≤ (run_profile_history example_patches).fst.version) ∧
    ((run_profile_history example_patches).fst.version = example_patches.length + 1 ∧
     (run_profile_history example_patches).snd.length = example_patches.length + 1 ∧
     (profile_state_at example_patches 3).version = 4 ∧
     (run_profile_history example_patches).snd.filter (fun s => decide (s.version = 4)) =
       [snapshot_of (profile_state_at example_patches 3)]) :=
  ⟨⟨by decide, by decide⟩,
   c3_version_snapshot_invariant example_patches 4 (by decide) (by decide)⟩

end AcmeLearn
